import Mathlib

/-!
Verification of the dishcovery faceted-search query compiler and facet
decoder (src/api/main.py), shallowly embedded in Lean 4.

The embedding mirrors the Python source: dynamic JSON documents become the
`Json` inductive (objects are ordered association lists, as Python dicts
preserve insertion order), Python truthiness of optional values becomes
explicit `truthy*` predicates, and the form-data normalization inside the
`/search` handler (including the pydantic field constraints of
`SearchRequest`) becomes `normalizeSearchForm`, which returns `none` where
the handler would raise a `ValidationError`.
-/

/-- A JSON value. Objects keep their fields in insertion order, matching
Python dict semantics used by the query builder. -/
inductive Json where
  | str : String → Json
  | num : Int → Json
  | bool : Bool → Json
  | arr : List Json → Json
  | obj : List (String × Json) → Json
deriving Repr

/-- Lookup of a key in an ordered field list (Python dict access). -/
def lookupPairs : List (String × Json) → String → Option Json
  | [], _ => none
  | (k, v) :: rest, key => if k = key then some v else lookupPairs rest key

/-- Lookup of a key in a JSON object; `none` on non-objects or missing keys. -/
def jlookup (j : Json) (key : String) : Option Json :=
  match j with
  | Json.obj fields => lookupPairs fields key
  | _ => none

/-- Python truthiness of an optional string: `None` and `""` are falsy. -/
def truthyOptStr : Option String → Bool
  | none => false
  | some s => decide (s ≠ "")

/-- Python truthiness of an optional list: `None` and `[]` are falsy. -/
def truthyOptList : Option (List String) → Bool
  | none => false
  | some l => decide (l ≠ [])

/-- Python truthiness of an optional integer: `None` and `0` are falsy. -/
def truthyOptInt : Option Int → Bool
  | none => false
  | some n => decide (n ≠ 0)

/-- Python `x or d` for an optional string `x` and default `d`. -/
def pyOrStr : Option String → String → String
  | none, d => d
  | some s, d => if s = "" then d else s

/-- The `DifficultyLevel` str-enum of src/api/models.py. -/
inductive Difficulty where
  | easy
  | medium
  | hard
deriving DecidableEq, Repr

/-- The string value carried by each `DifficultyLevel` member. -/
def Difficulty.value : Difficulty → String
  | .easy => "easy"
  | .medium => "medium"
  | .hard => "hard"

/-- The `SearchRequest` pydantic model of src/api/models.py (fields and
defaults; the `ge`/`le` constraints are enforced by `normalizeSearchForm`). -/
structure SearchRequest where
  query : Option String := none
  fuzziness : Option String := some "AUTO"
  cuisines : Option (List String) := none
  difficulty : Option Difficulty := none
  max_prep_time : Option Int := none
  max_cook_time : Option Int := none
  is_vegan : Option Bool := none
  is_vegetarian : Option Bool := none
  is_gluten_free : Option Bool := none
  is_dairy_free : Option Bool := none
  is_nut_free : Option Bool := none
  is_kosher : Option Bool := none
  is_halal : Option Bool := none
  min_healthiness : Option Int := none
  max_healthiness : Option Int := none
  size : Int := 10
  from_ : Int := 0
  include_aggregations : Bool := false
deriving DecidableEq, Repr

/-- The scoring clause appended to `query.bool.must` by `build_search_query`:
a weighted multi-field match when the text query is truthy, else match-all. -/
def scoringClause (r : SearchRequest) : Json :=
  if truthyOptStr r.query then
    Json.obj [("multi_match", Json.obj
      [("query", Json.str (r.query.getD "")),
       ("fields", Json.arr
         [Json.str "recipe_title^4", Json.str "description^2",
          Json.str "ingredient_text", Json.str "directions_text"]),
       ("type", Json.str "best_fields"),
       ("fuzziness", Json.str (pyOrStr r.fuzziness "AUTO"))])]
  else
    Json.obj [("match_all", Json.obj [])]

/-- The cuisine set-membership filter clause. -/
def cuisinesClause (cs : List String) : Json :=
  Json.obj [("terms", Json.obj [("cuisine_list.keyword", Json.arr (cs.map Json.str))])]

/-- The exact-difficulty filter clause. -/
def difficultyClause (d : Difficulty) : Json :=
  Json.obj [("term", Json.obj [("difficulty.keyword", Json.str d.value)])]

/-- The prep-time upper-bound filter clause. -/
def prepClause (n : Int) : Json :=
  Json.obj [("range", Json.obj [("est_prep_time_min", Json.obj [("lte", Json.num n)])])]

/-- The cook-time upper-bound filter clause. -/
def cookClause (n : Int) : Json :=
  Json.obj [("range", Json.obj [("est_cook_time_min", Json.obj [("lte", Json.num n)])])]

/-- A dietary boolean exact-match filter clause. -/
def dietaryClause (field : String) (b : Bool) : Json :=
  Json.obj [("term", Json.obj [(field, Json.bool b)])]

/-- The healthiness range filter clause, with `gte`/`lte` present exactly for
the truthy bounds (mirrors the `range_filter` dict built in the source). -/
def healthinessClause (mn mx : Option Int) : Json :=
  Json.obj [("range", Json.obj [("healthiness_score", Json.obj
    ((if truthyOptInt mn then [("gte", Json.num (mn.getD 0))] else []) ++
     (if truthyOptInt mx then [("lte", Json.num (mx.getD 0))] else [])))])]

/-- The list of clauses appended to `post_filter.bool.filter` by
`build_search_query`, in source order. -/
def postFilters (r : SearchRequest) : List Json :=
  (if truthyOptList r.cuisines then [cuisinesClause (r.cuisines.getD [])] else []) ++
  (match r.difficulty with
   | some d => [difficultyClause d]
   | none => []) ++
  (if truthyOptInt r.max_prep_time then [prepClause (r.max_prep_time.getD 0)] else []) ++
  (if truthyOptInt r.max_cook_time then [cookClause (r.max_cook_time.getD 0)] else []) ++
  (([(r.is_vegan, "is_vegan"), (r.is_vegetarian, "is_vegetarian"),
     (r.is_gluten_free, "is_gluten_free"), (r.is_dairy_free, "is_dairy_free"),
     (r.is_nut_free, "is_nut_free")] : List (Option Bool × String)).filterMap
    (fun vf => vf.1.map (dietaryClause vf.2))) ++
  (if truthyOptInt r.min_healthiness || truthyOptInt r.max_healthiness then
     [healthinessClause r.min_healthiness r.max_healthiness]
   else [])

/-- The painless script computing the derived `total_time_min` field. -/
def totalTimeScript : String :=
  "emit((doc[\x27est_prep_time_min\x27].size() > 0 ? doc[\x27est_prep_time_min\x27].value : 0) + (doc[\x27est_cook_time_min\x27].size() > 0 ? doc[\x27est_cook_time_min\x27].value : 0))"

/-- The `runtime_mappings` section registering the derived field. -/
def runtimeMappings : Json :=
  Json.obj [("total_time_min", Json.obj
    [("type", Json.str "long"),
     ("script", Json.obj [("source", Json.str totalTimeScript)])])]

/-- One boundary of a range facet: an optional inclusive lower bound (the
`from` key of the backend) and an optional exclusive upper bound (its `to` key). -/
structure RangeBoundary where
  key : String
  lo : Option Int
  hi : Option Int
deriving DecidableEq, Repr

/-- The `prep_time_ranges` boundaries of `AGGREGATION_CONFIGS`. -/
def prepTimeRanges : List RangeBoundary :=
  [⟨"0-15 min", none, some 15⟩,
   ⟨"15-30 min", some 15, some 30⟩,
   ⟨"30-60 min", some 30, some 60⟩,
   ⟨"60+ min", some 60, none⟩]

/-- The `cook_time_ranges` boundaries of `AGGREGATION_CONFIGS`. -/
def cookTimeRanges : List RangeBoundary :=
  [⟨"0-15 min", none, some 15⟩,
   ⟨"15-30 min", some 15, some 30⟩,
   ⟨"30-45 min", some 30, some 45⟩,
   ⟨"45-60 min", some 45, some 60⟩,
   ⟨"60-90 min", some 60, some 90⟩,
   ⟨"90-120 min", some 90, some 120⟩,
   ⟨"120+ min", some 120, none⟩]

/-- The `total_time_ranges` boundaries of `AGGREGATION_CONFIGS`. -/
def totalTimeRanges : List RangeBoundary :=
  [⟨"0-30 min", none, some 30⟩,
   ⟨"30-60 min", some 30, some 60⟩,
   ⟨"60-90 min", some 60, some 90⟩,
   ⟨"90-120 min", some 90, some 120⟩,
   ⟨"120+ min", some 120, none⟩]

/-- JSON rendering of one range boundary, keys in source order. -/
def rangeBoundaryJson (b : RangeBoundary) : Json :=
  Json.obj ([("key", Json.str b.key)] ++
    (match b.lo with
     | some v => [("from", Json.num v)]
     | none => []) ++
    (match b.hi with
     | some v => [("to", Json.num v)]
     | none => []))

/-- JSON rendering of a range aggregation config. -/
def rangeAggJson (field : String) (bs : List RangeBoundary) : Json :=
  Json.obj [("range", Json.obj
    [("field", Json.str field),
     ("ranges", Json.arr (bs.map rangeBoundaryJson))])]

/-- JSON rendering of a terms aggregation config (alphabetic key order). -/
def termsAggJson (field : String) (cap : Int) : Json :=
  Json.obj [("terms", Json.obj
    [("field", Json.str field),
     ("size", Json.num cap),
     ("order", Json.obj [("_key", Json.str "asc")])])]

/-- The module-level `AGGREGATION_CONFIGS` table of src/api/main.py. -/
def aggregationConfigs : Json :=
  Json.obj
    [("cuisines", termsAggJson "cuisine_list.keyword" 1000),
     ("difficulty_levels", termsAggJson "difficulty.keyword" 50),
     ("dietary_profiles", termsAggJson "dietary_profile.keyword" 50),
     ("healthiness_stats", Json.obj [("stats", Json.obj [("field", Json.str "healthiness_score")])]),
     ("prep_time_ranges", rangeAggJson "est_prep_time_min" prepTimeRanges),
     ("cook_time_ranges", rangeAggJson "est_cook_time_min" cookTimeRanges),
     ("total_time_ranges", rangeAggJson "total_time_min" totalTimeRanges)]

/-- `build_search_query` of src/api/main.py. Field order matches the final
Python dict: `size`, `from`, `query`, then `post_filter` if any filter clause
was appended (the empty `post_filter` is deleted), then `runtime_mappings`
and `aggs` if aggregations were requested. -/
def buildSearchQuery (r : SearchRequest) : Json :=
  Json.obj
    ([("size", Json.num r.size),
      ("from", Json.num r.from_),
      ("query", Json.obj [("bool", Json.obj [("must", Json.arr [scoringClause r])])])] ++
     (if (postFilters r).isEmpty then []
      else [("post_filter", Json.obj [("bool", Json.obj [("filter", Json.arr (postFilters r))])])]) ++
     (if r.include_aggregations then
        [("runtime_mappings", runtimeMappings), ("aggs", aggregationConfigs)]
      else []))

/-- The raw form fields accepted by the `/search` handler (FastAPI `Form`
parameters with their declared defaults). -/
structure RawForm where
  query : String := ""
  size : Int := 10
  from_ : Int := 0
  append : Option String := none
  cuisines : Option (List String) := none
  difficulty : Option String := none
  is_vegan : Option String := none
  is_vegetarian : Option String := none
  is_gluten_free : Option String := none
  is_dairy_free : Option String := none
  is_nut_free : Option String := none
  max_prep_time : Option String := none
  max_cook_time : Option String := none
  min_healthiness : Option String := none
  max_healthiness : Option String := none
deriving DecidableEq, Repr

/-- Whether a character is ASCII whitespace (the characters removed by the Python `strip` method, restricted to ASCII). -/
def isPyWS (c : Char) : Bool :=
  c = ' ' || c = '\t' || c = '\n' || c = '\r' || c = '\x0b' || c = '\x0c'

/-- Python `s.strip()`: remove leading and trailing whitespace. -/
def pyStrip (s : String) : String :=
  String.mk (((s.data.dropWhile isPyWS).reverse.dropWhile isPyWS).reverse)

/-- The `parse_bool` helper of the handler: `"true"` and `"false"` map to booleans,
anything else (including absence) to `None`. -/
def parse_bool : Option String → Option Bool
  | some "true" => some true
  | some "false" => some false
  | _ => none

/-- Value of a digit run, `none` if empty or a non-digit occurs. -/
def digitsVal (cs : List Char) : Option Nat :=
  if cs.isEmpty then none
  else cs.foldl
    (fun acc c => acc.bind fun n => if c.isDigit then some (n * 10 + (c.toNat - 48)) else none)
    (some 0)

/-- Python `int(s)` on an already-stripped string: optional sign, digits. -/
def pyToInt (s : String) : Option Int :=
  match s.data with
  | '-' :: rest => (digitsVal rest).map (fun n => -(n : Int))
  | '+' :: rest => (digitsVal rest).map (fun n => (n : Int))
  | cs => (digitsVal cs).map (fun n => (n : Int))

/-- The `parse_int` helper of the handler: absent, empty or whitespace-only strings map
to `None`; otherwise the stripped string is parsed, failures map to `None`. -/
def parse_int : Option String → Option Int
  | none => none
  | some s => if s = "" ∨ pyStrip s = "" then none else pyToInt (pyStrip s)

/-- Coercion of a raw difficulty string into the `DifficultyLevel` enum
(pydantic validation; unknown strings are a `ValidationError`). -/
def validDifficulty : String → Option Difficulty
  | "easy" => some Difficulty.easy
  | "medium" => some Difficulty.medium
  | "hard" => some Difficulty.hard
  | _ => none

/-- Whether an optional integer satisfies a pydantic `ge` bound. -/
def geOk (lo : Int) : Option Int → Bool
  | none => true
  | some n => decide (lo ≤ n)

/-- Whether an optional integer satisfies pydantic `ge`/`le` bounds. -/
def rangeOk (lo hi : Int) : Option Int → Bool
  | none => true
  | some n => decide (lo ≤ n ∧ n ≤ hi)

/-- The normalization performed by the `/search` handler when constructing
its `SearchRequest` (src/api/main.py lines 429-472), composed with the
pydantic field constraints of the `SearchRequest` model; `none` is a
`ValidationError`. The healthiness bounds are admitted only when truthy and
beyond the hardcoded thresholds (`> 16` for the minimum, `< 100` for the
maximum). -/
def normalizeSearchForm (f : RawForm) : Option SearchRequest :=
  let is_append : Bool := f.append == some "true"
  let q : String := if f.query ≠ "" then pyStrip f.query else ""
  let size : Int := min f.size 50
  let from_ : Int := max f.from_ 0
  let cuisines : Option (List String) := if truthyOptList f.cuisines then f.cuisines else none
  let difficultyRaw : Option String := if truthyOptStr f.difficulty then f.difficulty else none
  let mpt : Option Int := parse_int f.max_prep_time
  let mct : Option Int := parse_int f.max_cook_time
  let minh : Option Int :=
    match parse_int f.min_healthiness with
    | some n => if n ≠ 0 ∧ 16 < n then some n else none
    | none => none
  let maxh : Option Int :=
    match parse_int f.max_healthiness with
    | some n => if n ≠ 0 ∧ n < 100 then some n else none
    | none => none
  let diffParsed : Option (Option Difficulty) :=
    match difficultyRaw with
    | none => some none
    | some s => (validDifficulty s).map some
  match diffParsed with
  | none => none
  | some diff =>
    if 0 ≤ size ∧ size ≤ 100 ∧ 0 ≤ from_ ∧
       geOk 0 mpt ∧ geOk 0 mct ∧ rangeOk 0 100 minh ∧ rangeOk 0 100 maxh then
      some
        { query := some q
          fuzziness := some "AUTO"
          cuisines := cuisines
          difficulty := diff
          max_prep_time := mpt
          max_cook_time := mct
          is_vegan := parse_bool f.is_vegan
          is_vegetarian := parse_bool f.is_vegetarian
          is_gluten_free := parse_bool f.is_gluten_free
          is_dairy_free := parse_bool f.is_dairy_free
          is_nut_free := parse_bool f.is_nut_free
          is_kosher := none
          is_halal := none
          min_healthiness := minh
          max_healthiness := maxh
          size := size
          from_ := from_
          include_aggregations := !is_append }
    else none

/-- A raw bucket of a backend bucket aggregation. -/
structure RawBucket where
  key : String
  doc_count : Int
deriving DecidableEq, Repr

/-- A raw backend stats aggregation; each statistic may be reported absent.
Backend numbers are modelled as rationals. -/
structure RawStats where
  min : Option ℚ
  max : Option ℚ
  avg : Option ℚ
  sum : Option ℚ
deriving DecidableEq, Repr

/-- The backend aggregation payload restricted to the configured facet
names; a `none` field is a name absent from the payload. -/
structure RawAggsData where
  cuisines : Option (List RawBucket) := none
  difficulty_levels : Option (List RawBucket) := none
  dietary_profiles : Option (List RawBucket) := none
  healthiness_stats : Option RawStats := none
  prep_time_ranges : Option (List RawBucket) := none
  cook_time_ranges : Option (List RawBucket) := none
  total_time_ranges : Option (List RawBucket) := none
deriving DecidableEq, Repr

/-- The `AggregationBucket` pydantic model. -/
structure AggregationBucket where
  key : String
  doc_count : Int
deriving DecidableEq, Repr

/-- The `AggregationStats` pydantic model. -/
structure AggregationStats where
  min : Option ℚ
  max : Option ℚ
  avg : Option ℚ
  sum : Option ℚ
deriving DecidableEq, Repr

/-- The `Aggregations` pydantic model (the decoded facet summary; the two
unused count fields of the model are omitted as `parse_aggregations` never
sets them). -/
structure Aggregations where
  cuisines : Option (List AggregationBucket)
  difficulty_levels : Option (List AggregationBucket)
  dietary_profiles : Option (List AggregationBucket)
  healthiness_stats : Option AggregationStats
  prep_time_ranges : Option (List AggregationBucket)
  cook_time_ranges : Option (List AggregationBucket)
  total_time_ranges : Option (List AggregationBucket)
deriving DecidableEq, Repr

/-- Python truthiness of an optional rational: `None` and `0` are falsy. -/
def truthyOptRat : Option ℚ → Bool
  | none => false
  | some q => decide (q ≠ 0)

/-- Rounding of a rational to the nearest integer, ties to even
(Python `round` semantics on exact values). -/
def roundHalfEven (q : ℚ) : Int :=
  let f : Int := ⌊q⌋
  if q - f < 1 / 2 then f
  else if 1 / 2 < q - f then f + 1
  else if f % 2 = 0 then f else f + 1

/-- Python `round(q, 1)`: round to one decimal place, ties to even. -/
def pyRound1 (q : ℚ) : ℚ := (roundHalfEven (q * 10) : ℚ) / 10

/-- The `parse_bucket_agg` helper of `parse_aggregations`: absent maps to
`None`, otherwise each raw bucket maps to `{key, doc_count}` in order. -/
def parse_bucket_agg (o : Option (List RawBucket)) : Option (List AggregationBucket) :=
  o.map (fun buckets => buckets.map (fun b => { key := b.key, doc_count := b.doc_count }))

/-- `parse_aggregations` of src/api/main.py: decodes the backend payload
into the `Aggregations` model. The stats branch mirrors the source line
`avg=round(stats.get("avg", 0), 1) if stats.get("avg") else None`. -/
def parse_aggregations (aggs_data : RawAggsData) : Aggregations :=
  { cuisines := parse_bucket_agg aggs_data.cuisines
    difficulty_levels := parse_bucket_agg aggs_data.difficulty_levels
    dietary_profiles := parse_bucket_agg aggs_data.dietary_profiles
    healthiness_stats := aggs_data.healthiness_stats.map (fun stats =>
      { min := stats.min
        max := stats.max
        avg := if truthyOptRat stats.avg then some (pyRound1 (stats.avg.getD 0)) else none
        sum := stats.sum })
    prep_time_ranges := parse_bucket_agg aggs_data.prep_time_ranges
    cook_time_ranges := parse_bucket_agg aggs_data.cook_time_ranges
    total_time_ranges := parse_bucket_agg aggs_data.total_time_ranges }

/-- Modelled from the spec: the range-aggregation bucket assignment of the
backend is not code of this repository (it is documented behavior of the
external search engine, stated in the spec as "lower bound
inclusive, upper bound exclusive"). A value falls in every boundary whose
inclusive lower bound (if any) is at most the value and whose exclusive
upper bound (if any) exceeds it. -/
def bucketsContaining (bs : List RangeBoundary) (v : Int) : List String :=
  (bs.filter (fun b =>
    (match b.lo with
     | none => true
     | some l => decide (l ≤ v)) &&
    (match b.hi with
     | none => true
     | some h => decide (v < h)))).map RangeBoundary.key

/-! Helper lemmas about lookups into the compiled query. -/

theorem lookupPairs_append (xs ys : List (String × Json)) (k : String) :
    lookupPairs (xs ++ ys) k =
      match lookupPairs xs k with
      | some v => some v
      | none => lookupPairs ys k := by
  induction xs with
  | nil => simp [lookupPairs]
  | cons p rest ih =>
    by_cases h : p.1 = k
    · simp [lookupPairs, h]
    · simp [lookupPairs, h, ih]

theorem build_size_lookup (r : SearchRequest) :
    jlookup (buildSearchQuery r) "size" = some (Json.num r.size) := by
  simp [buildSearchQuery, jlookup, lookupPairs_append, lookupPairs]

theorem build_from_lookup (r : SearchRequest) :
    jlookup (buildSearchQuery r) "from" = some (Json.num r.from_) := by
  simp [buildSearchQuery, jlookup, lookupPairs_append, lookupPairs]

theorem build_query_lookup (r : SearchRequest) :
    jlookup (buildSearchQuery r) "query" =
      some (Json.obj [("bool", Json.obj [("must", Json.arr [scoringClause r])])]) := by
  simp [buildSearchQuery, jlookup, lookupPairs_append, lookupPairs]

theorem build_postfilter_lookup (r : SearchRequest) :
    jlookup (buildSearchQuery r) "post_filter" =
      (if (postFilters r).isEmpty then none
       else some (Json.obj [("bool", Json.obj [("filter", Json.arr (postFilters r))])])) := by
  by_cases h : (postFilters r).isEmpty <;> by_cases h2 : r.include_aggregations <;>
    simp [buildSearchQuery, jlookup, lookupPairs_append, lookupPairs, h, h2]

theorem build_aggs_lookup (r : SearchRequest) :
    jlookup (buildSearchQuery r) "aggs" =
      (if r.include_aggregations then some aggregationConfigs else none) := by
  by_cases h : (postFilters r).isEmpty <;> by_cases h2 : r.include_aggregations <;>
    simp [buildSearchQuery, jlookup, lookupPairs_append, lookupPairs, h, h2]

theorem build_runtime_lookup (r : SearchRequest) :
    jlookup (buildSearchQuery r) "runtime_mappings" =
      (if r.include_aggregations then some runtimeMappings else none) := by
  by_cases h : (postFilters r).isEmpty <;> by_cases h2 : r.include_aggregations <;>
    simp [buildSearchQuery, jlookup, lookupPairs_append, lookupPairs, h, h2]

/-! Helper lemmas about membership in the post-filter clause list. -/

theorem mem_ite_singleton {c : Bool} {x a : Json} :
    x ∈ (if c then [a] else []) ↔ c = true ∧ x = a := by
  cases c <;> simp

theorem map_json_str_inj {xs ys : List String} :
    xs.map Json.str = ys.map Json.str ↔ xs = ys := by
  constructor
  · intro h
    exact List.map_injective_iff.mpr (fun a b hab => by injection hab) h
  · intro h
    rw [h]

theorem Difficulty.value_inj {d d' : Difficulty} : d.value = d'.value ↔ d = d' := by
  cases d <;> cases d' <;> simp [Difficulty.value]

theorem mem_difficulty_seg {o : Option Difficulty} {x : Json} :
    (x ∈ match o with
         | some d => [difficultyClause d]
         | none => ([] : List Json)) ↔ ∃ d, o = some d ∧ x = difficultyClause d := by
  cases o <;> simp

theorem mem_dietary_seg {o1 o2 o3 o4 o5 : Option Bool} {x : Json} :
    (x ∈ ([(o1, "is_vegan"), (o2, "is_vegetarian"), (o3, "is_gluten_free"),
           (o4, "is_dairy_free"), (o5, "is_nut_free")] : List (Option Bool × String)).filterMap
      (fun vf => vf.1.map (dietaryClause vf.2))) ↔
    ((∃ b, o1 = some b ∧ x = dietaryClause "is_vegan" b) ∨
     (∃ b, o2 = some b ∧ x = dietaryClause "is_vegetarian" b) ∨
     (∃ b, o3 = some b ∧ x = dietaryClause "is_gluten_free" b) ∨
     (∃ b, o4 = some b ∧ x = dietaryClause "is_dairy_free" b) ∨
     (∃ b, o5 = some b ∧ x = dietaryClause "is_nut_free" b)) := by
  cases o1 <;> cases o2 <;> cases o3 <;> cases o4 <;> cases o5 <;>
    simp [List.filterMap_cons]

/-! Helper lemma extracting the shape of a successfully normalized request. -/

theorem normalizeSearchForm_spec (f : RawForm) (r : SearchRequest)
    (h : normalizeSearchForm f = some r) :
    r.query = some (if f.query ≠ "" then pyStrip f.query else "") ∧
    r.size = min f.size 50 ∧
    r.from_ = max f.from_ 0 ∧
    0 ≤ r.size ∧ r.size ≤ 50 ∧
    r.include_aggregations = !(f.append == some "true") ∧
    r.min_healthiness = (match parse_int f.min_healthiness with
      | some n => if n ≠ 0 ∧ 16 < n then some n else none
      | none => none) ∧
    r.max_healthiness = (match parse_int f.max_healthiness with
      | some n => if n ≠ 0 ∧ n < 100 then some n else none
      | none => none) := by
  simp only [normalizeSearchForm] at h
  split at h
  · exact absurd h (by simp)
  · split at h
    · rename_i hcond
      injection h with h
      subst h
      exact ⟨rfl, rfl, rfl, hcond.1, min_le_right _ _, rfl, rfl, rfl⟩
    · exact absurd h (by simp)

/-! Helper lemma: the prep-time range boundaries partition the nonnegative
integers under the modelled bucket-assignment semantics. -/

theorem prep_partition (v : Int) (h0 : 0 ≤ v) :
    bucketsContaining prepTimeRanges v =
      (if v < 15 then ["0-15 min"]
       else if v < 30 then ["15-30 min"]
       else if v < 60 then ["30-60 min"]
       else ["60+ min"]) := by
  by_cases h1 : v < 15
  · simp [bucketsContaining, prepTimeRanges, List.filter, h1,
      show v < 30 by omega, show v < 60 by omega,
      show ¬ 15 ≤ v by omega, show ¬ 30 ≤ v by omega, show ¬ 60 ≤ v by omega]
  · by_cases h2 : v < 30
    · simp [bucketsContaining, prepTimeRanges, List.filter, h1, h2,
        show v < 60 by omega, show 15 ≤ v by omega,
        show ¬ 30 ≤ v by omega, show ¬ 60 ≤ v by omega]
    · by_cases h3 : v < 60
      · simp [bucketsContaining, prepTimeRanges, List.filter, h1, h2, h3,
          show 15 ≤ v by omega, show 30 ≤ v by omega, show ¬ 60 ≤ v by omega]
      · simp [bucketsContaining, prepTimeRanges, List.filter, h1, h2, h3,
          show 15 ≤ v by omega, show 30 ≤ v by omega, show 60 ≤ v by omega]

/-- Claim C1: for every SearchRequest the compiled query scope is
`bool.must = [scoringClause]` only — every filter criterion lives in
`post_filter` — and for two requests agreeing on text query, fuzziness and
the aggregation switch, the scoring clause, the `query` scope and the
aggregation sections of the compiled queries coincide, however the filter
fields differ. -/
theorem c1_facet_scope_independent_of_filters (r₁ r₂ : SearchRequest) :
    jlookup (buildSearchQuery r₁) "query" =
      some (Json.obj [("bool", Json.obj [("must", Json.arr [scoringClause r₁])])]) ∧
    (r₁.query = r₂.query → r₁.fuzziness = r₂.fuzziness →
      r₁.include_aggregations = r₂.include_aggregations →
      scoringClause r₁ = scoringClause r₂ ∧
      jlookup (buildSearchQuery r₁) "query" = jlookup (buildSearchQuery r₂) "query" ∧
      jlookup (buildSearchQuery r₁) "aggs" = jlookup (buildSearchQuery r₂) "aggs" ∧
      jlookup (buildSearchQuery r₁) "runtime_mappings" =
        jlookup (buildSearchQuery r₂) "runtime_mappings") := by
  refine ⟨build_query_lookup r₁, fun hq hf ha => ?_⟩
  have hs : scoringClause r₁ = scoringClause r₂ := by
    unfold scoringClause
    rw [hq, hf]
  refine ⟨hs, ?_, ?_, ?_⟩
  · rw [build_query_lookup, build_query_lookup, hs]
  · rw [build_aggs_lookup, build_aggs_lookup, ha]
  · rw [build_runtime_lookup, build_runtime_lookup, ha]

/-- Witness for C1: a fully filtered request and an unfiltered one with the
same text query compile to the same aggregation scope. -/
theorem c1_facet_scope_witness :
    jlookup (buildSearchQuery
      { query := some "pasta"
        cuisines := some ["italian"]
        is_vegan := some true
        max_prep_time := some 30
        min_healthiness := some 20
        include_aggregations := true }) "aggs" =
    jlookup (buildSearchQuery { query := some "pasta", include_aggregations := true }) "aggs" :=
  ((c1_facet_scope_independent_of_filters
      { query := some "pasta"
        cuisines := some ["italian"]
        is_vegan := some true
        max_prep_time := some 30
        min_healthiness := some 20
        include_aggregations := true }
      { query := some "pasta", include_aggregations := true }).2 rfl rfl rfl).2.2.1

/-- Claim C2: a request with the append form field set to "true" normalizes
with include_aggregations false, and its compiled query has no `aggs`
section and no `runtime_mappings` section. -/
theorem c2_append_suppresses_facets (f : RawForm) (r : SearchRequest)
    (happ : f.append = some "true") (h : normalizeSearchForm f = some r) :
    r.include_aggregations = false ∧
    jlookup (buildSearchQuery r) "aggs" = none ∧
    jlookup (buildSearchQuery r) "runtime_mappings" = none := by
  have hs := normalizeSearchForm_spec f r h
  have hinc : r.include_aggregations = false := by
    rw [hs.2.2.2.2.2.1, happ]
    rfl
  refine ⟨hinc, ?_, ?_⟩
  · rw [build_aggs_lookup, hinc]
    rfl
  · rw [build_runtime_lookup, hinc]
    rfl

/-- Witness for C2 at the concrete form with only append set. -/
theorem c2_append_witness :
    ({ query := some "" } : SearchRequest).include_aggregations = false ∧
    jlookup (buildSearchQuery { query := some "" }) "aggs" = none ∧
    jlookup (buildSearchQuery { query := some "" }) "runtime_mappings" = none :=
  c2_append_suppresses_facets { append := some "true" } { query := some "" } rfl rfl

/-- Claim C3 (code bug): the decoder maps a backend-reported healthiness
average of exactly 0 to null, although min, max and sum are extracted
verbatim; the claim (and the spec) require a zero average to decode to 0.0,
distinct from "no data". The truthiness test on the average in
parse_aggregations conflates 0 with absence. -/
theorem c3_zero_average_decoded_as_null :
    (parse_aggregations
        { healthiness_stats := some { min := some 0, max := some 0, avg := some 0, sum := some 0 } }).healthiness_stats =
      some { min := some 0, max := some 0, avg := none, sum := some 0 } := rfl

/-- Claim C9: the decoder maps a facet name absent from the backend payload
to null, a present facet with zero buckets to the empty list, and a present
facet with buckets to the ordered list of key/count pairs, for every
configured bucket facet. -/
theorem c9_absent_vs_empty_facets (d : RawAggsData) :
    ((parse_aggregations d).cuisines = parse_bucket_agg d.cuisines ∧
     (parse_aggregations d).difficulty_levels = parse_bucket_agg d.difficulty_levels ∧
     (parse_aggregations d).dietary_profiles = parse_bucket_agg d.dietary_profiles ∧
     (parse_aggregations d).prep_time_ranges = parse_bucket_agg d.prep_time_ranges ∧
     (parse_aggregations d).cook_time_ranges = parse_bucket_agg d.cook_time_ranges ∧
     (parse_aggregations d).total_time_ranges = parse_bucket_agg d.total_time_ranges) ∧
    (∀ o : Option (List RawBucket), parse_bucket_agg o = none ↔ o = none) ∧
    parse_bucket_agg (some []) = some [] ∧
    (∀ bs : List RawBucket, parse_bucket_agg (some bs) =
      some (bs.map (fun b => ({ key := b.key, doc_count := b.doc_count } : AggregationBucket)))) := by
  refine ⟨⟨rfl, rfl, rfl, rfl, rfl, rfl⟩, ?_, rfl, fun bs => rfl⟩
  intro o
  rcases o <;> simp [parse_bucket_agg]

/-- Claim C10: the compiled query carries a `post_filter` section exactly
when at least one filter clause was appended; an empty filter list removes
the key entirely. -/
theorem c10_post_filter_iff_nonempty (r : SearchRequest) :
    ((jlookup (buildSearchQuery r) "post_filter").isSome ↔ postFilters r ≠ []) ∧
    jlookup (buildSearchQuery r) "post_filter" =
      (if (postFilters r).isEmpty then none
       else some (Json.obj [("bool", Json.obj [("filter", Json.arr (postFilters r))])])) := by
  have hb := build_postfilter_lookup r
  refine ⟨?_, hb⟩
  rw [hb]
  rcases hp : postFilters r with _ | ⟨x, xs⟩ <;> simp

/-- Counterexample to C4 as stated: the raw value "0" parses to the integer
0, which is strictly less than 100, yet the normalizer drops the maximum
healthiness bound to absent (Python truthiness treats 0 as falsy). -/
theorem c4_healthiness_counterexample :
    parse_int (some "0") = some 0 ∧ ((0 : Int) < 100) ∧
    (normalizeSearchForm { max_healthiness := some "0" }).map
      SearchRequest.max_healthiness = some none :=
  ⟨rfl, by decide, rfl⟩

/-- Claim C4 (amended): the normalizer admits min_healthiness exactly when
it parses to an integer strictly greater than 16, and admits
max_healthiness exactly when it parses to a nonzero integer strictly less
than 100; values failing these tests are dropped to absent. -/
theorem c4_healthiness_admission (f : RawForm) (r : SearchRequest)
    (h : normalizeSearchForm f = some r) :
    (∀ n, r.min_healthiness = some n ↔ (parse_int f.min_healthiness = some n ∧ 16 < n)) ∧
    (∀ n, r.max_healthiness = some n ↔
      (parse_int f.max_healthiness = some n ∧ n ≠ 0 ∧ n < 100)) := by
  have hs := normalizeSearchForm_spec f r h
  constructor
  · intro n
    rw [hs.2.2.2.2.2.2.1]
    rcases parse_int f.min_healthiness with _ | m
    · simp
    · show (if m ≠ 0 ∧ 16 < m then some m else none) = some n ↔ some m = some n ∧ 16 < n
      by_cases hm : m ≠ 0 ∧ 16 < m
      · rw [if_pos hm]
        constructor
        · rintro h1
          injection h1 with h1
          subst h1
          exact ⟨rfl, hm.2⟩
        · rintro ⟨h1, _⟩
          injection h1 with h1
          rw [h1]
      · rw [if_neg hm]
        constructor
        · rintro ⟨⟩
        · rintro ⟨h1, h2⟩
          injection h1 with h1
          subst h1
          exact absurd ⟨by omega, h2⟩ hm
  · intro n
    rw [hs.2.2.2.2.2.2.2]
    rcases parse_int f.max_healthiness with _ | m
    · simp
    · show (if m ≠ 0 ∧ m < 100 then some m else none) = some n ↔
        some m = some n ∧ n ≠ 0 ∧ n < 100
      by_cases hm : m ≠ 0 ∧ m < 100
      · rw [if_pos hm]
        constructor
        · rintro h1
          injection h1 with h1
          subst h1
          exact ⟨rfl, hm⟩
        · rintro ⟨h1, _⟩
          injection h1 with h1
          rw [h1]
      · rw [if_neg hm]
        constructor
        · rintro ⟨⟩
        · rintro ⟨h1, h2⟩
          injection h1 with h1
          subst h1
          exact absurd h2 hm

/-- Witness for C4 at a request with both healthiness bounds admitted. -/
theorem c4_healthiness_witness :
    ({ query := some ""
       min_healthiness := some 17
       max_healthiness := some 99
       include_aggregations := true } : SearchRequest).min_healthiness = some 17 ↔
      (parse_int (some "17") = some 17 ∧ (16 : Int) < 17) :=
  (c4_healthiness_admission
      { min_healthiness := some "17", max_healthiness := some "99" }
      { query := some ""
        min_healthiness := some 17
        max_healthiness := some 99
        include_aggregations := true }
      rfl).1 17

/-- Counterexample to C5 as stated: a request with size -5 does not
normalize to size 0; the capped value -5 fails the model validation and the
request is rejected. -/
theorem c5_negative_size_counterexample :
    normalizeSearchForm { size := -5 } = none := rfl

/-- Claim C5 (amended): the normalizer caps size above at 50 (so size 500
becomes 50) and every admitted size lies in [0, 50], but a negative size is
rejected by validation rather than floored to 0; the offset is floored at 0
(from -5 becomes 0); the compiled query carries exactly the normalized size
and offset. -/
theorem c5_size_cap_offset_floor (f : RawForm) (r : SearchRequest)
    (h : normalizeSearchForm f = some r) :
    r.size = min f.size 50 ∧
    r.from_ = max f.from_ 0 ∧
    0 ≤ r.size ∧ r.size ≤ 50 ∧
    jlookup (buildSearchQuery r) "size" = some (Json.num r.size) ∧
    jlookup (buildSearchQuery r) "from" = some (Json.num r.from_) := by
  have hs := normalizeSearchForm_spec f r h
  exact ⟨hs.2.1, hs.2.2.1, hs.2.2.2.1, hs.2.2.2.2.1,
    build_size_lookup r, build_from_lookup r⟩

/-- Witness for C5 at a request with size 500 and offset -5. -/
theorem c5_size_cap_witness :
    ({ query := some "", size := 50, include_aggregations := true } : SearchRequest).size =
      min 500 50 ∧
    ({ query := some "", size := 50, include_aggregations := true } : SearchRequest).from_ =
      max (-5) 0 :=
  ⟨(c5_size_cap_offset_floor { size := 500, from_ := -5 }
      { query := some "", size := 50, include_aggregations := true } rfl).1,
   (c5_size_cap_offset_floor { size := 500, from_ := -5 }
      { query := some "", size := 50, include_aggregations := true } rfl).2.1⟩

/-- Claim C6: with a truthy text query the scoring clause is a multi-field
match over recipe_title (boost 4), description (boost 2), ingredient_text
and directions_text (boost 1), carrying the configured fuzziness and
defaulting to AUTO when absent; with an absent or empty text query it is a
match-all clause; the compiled query scope is exactly this clause. -/
theorem c6_scoring_clause_shape (r : SearchRequest) (s : String) :
    (r.query = some s → s ≠ "" →
      scoringClause r = Json.obj [("multi_match", Json.obj
        [("query", Json.str s),
         ("fields", Json.arr
           [Json.str "recipe_title^4", Json.str "description^2",
            Json.str "ingredient_text", Json.str "directions_text"]),
         ("type", Json.str "best_fields"),
         ("fuzziness", Json.str (pyOrStr r.fuzziness "AUTO"))])]) ∧
    (r.fuzziness = none → pyOrStr r.fuzziness "AUTO" = "AUTO") ∧
    (truthyOptStr r.query = false → scoringClause r = Json.obj [("match_all", Json.obj [])]) ∧
    jlookup (buildSearchQuery r) "query" =
      some (Json.obj [("bool", Json.obj [("must", Json.arr [scoringClause r])])]) := by
  refine ⟨?_, ?_, ?_, build_query_lookup r⟩
  · intro hq hne
    simp [scoringClause, hq, truthyOptStr, hne]
  · intro hf
    simp [pyOrStr, hf]
  · intro ht
    simp [scoringClause, ht]

/-- Witness for C6 at the query string "pasta" with default fuzziness. -/
theorem c6_scoring_clause_witness :
    scoringClause { query := some "pasta" } = Json.obj [("multi_match", Json.obj
      [("query", Json.str "pasta"),
       ("fields", Json.arr
         [Json.str "recipe_title^4", Json.str "description^2",
          Json.str "ingredient_text", Json.str "directions_text"]),
       ("type", Json.str "best_fields"),
       ("fuzziness", Json.str "AUTO")])] := by
  simpa using
    (c6_scoring_clause_shape { query := some "pasta" } "pasta").1 rfl (by decide)

/-- Counterexample to C7 as stated: a present max_prep_time of 0 yields no
filter clause at all (Python truthiness treats 0 as absent), so the
compiled query of such a request has no post_filter section. -/
theorem c7_zero_prep_counterexample :
    ({ max_prep_time := some 0 } : SearchRequest).max_prep_time = some 0 ∧
    postFilters { max_prep_time := some 0 } = [] ∧
    jlookup (buildSearchQuery { max_prep_time := some 0 }) "post_filter" = none :=
  ⟨rfl, rfl, rfl⟩

/-- Claim C7 (amended): each criterion yields exactly one filter clause when
present and truthy — for the numeric criteria a value of 0 and for cuisines
an empty list are treated as absent — dietary flags yield a clause whenever
present (also when false), the healthiness bounds combine into a single
range clause, and an empty filter set is valid. The clause count is the sum
of the per-criterion indicators, and each clause shape occurs exactly under
its criterion. -/
theorem c7_filter_clause_catalog (r : SearchRequest) :
    ((postFilters r).length =
      (if truthyOptList r.cuisines then 1 else 0) +
      (if r.difficulty.isSome then 1 else 0) +
      (if truthyOptInt r.max_prep_time then 1 else 0) +
      (if truthyOptInt r.max_cook_time then 1 else 0) +
      (if r.is_vegan.isSome then 1 else 0) +
      (if r.is_vegetarian.isSome then 1 else 0) +
      (if r.is_gluten_free.isSome then 1 else 0) +
      (if r.is_dairy_free.isSome then 1 else 0) +
      (if r.is_nut_free.isSome then 1 else 0) +
      (if (truthyOptInt r.min_healthiness || truthyOptInt r.max_healthiness) then 1 else 0)) ∧
    (∀ cs, cuisinesClause cs ∈ postFilters r ↔ r.cuisines = some cs ∧ cs ≠ []) ∧
    (∀ d, difficultyClause d ∈ postFilters r ↔ r.difficulty = some d) ∧
    (∀ n, prepClause n ∈ postFilters r ↔ r.max_prep_time = some n ∧ n ≠ 0) ∧
    (∀ n, cookClause n ∈ postFilters r ↔ r.max_cook_time = some n ∧ n ≠ 0) ∧
    (∀ b, dietaryClause "is_vegan" b ∈ postFilters r ↔ r.is_vegan = some b) ∧
    (∀ b, dietaryClause "is_vegetarian" b ∈ postFilters r ↔ r.is_vegetarian = some b) ∧
    (∀ b, dietaryClause "is_gluten_free" b ∈ postFilters r ↔ r.is_gluten_free = some b) ∧
    (∀ b, dietaryClause "is_dairy_free" b ∈ postFilters r ↔ r.is_dairy_free = some b) ∧
    (∀ b, dietaryClause "is_nut_free" b ∈ postFilters r ↔ r.is_nut_free = some b) ∧
    (healthinessClause r.min_healthiness r.max_healthiness ∈ postFilters r ↔
      (truthyOptInt r.min_healthiness || truthyOptInt r.max_healthiness) = true) ∧
    (∀ a b, r.min_healthiness = some a → a ≠ 0 → r.max_healthiness = some b → b ≠ 0 →
      healthinessClause r.min_healthiness r.max_healthiness =
        Json.obj [("range", Json.obj [("healthiness_score",
          Json.obj [("gte", Json.num a), ("lte", Json.num b)])])]) := by
  refine ⟨?_, ?_, ?_, ?_, ?_, ?_, ?_, ?_, ?_, ?_, ?_, ?_⟩
  · rcases hd : r.difficulty with _ | d <;>
    rcases h1 : r.is_vegan with _ | b1 <;> rcases h2 : r.is_vegetarian with _ | b2 <;>
    rcases h3 : r.is_gluten_free with _ | b3 <;> rcases h4 : r.is_dairy_free with _ | b4 <;>
    rcases h5 : r.is_nut_free with _ | b5 <;>
      simp [postFilters, hd, h1, h2, h3, h4, h5, List.filterMap_cons, apply_ite List.length] <;>
      omega
  · intro cs
    rcases hc : r.cuisines with _ | l <;>
      simp only [postFilters, List.mem_append, mem_ite_singleton, mem_difficulty_seg,
        mem_dietary_seg, hc, truthyOptList] <;>
      simp [cuisinesClause, difficultyClause, prepClause, cookClause, dietaryClause,
        healthinessClause, map_json_str_inj] <;>
      aesop
  · intro d
    rcases hd : r.difficulty with _ | d' <;>
      simp only [postFilters, List.mem_append, mem_ite_singleton, mem_difficulty_seg,
        mem_dietary_seg, hd] <;>
      simp [cuisinesClause, difficultyClause, prepClause, cookClause, dietaryClause,
        healthinessClause, Difficulty.value_inj] <;>
      aesop
  · intro n
    rcases hp : r.max_prep_time with _ | m <;>
      simp only [postFilters, List.mem_append, mem_ite_singleton, mem_difficulty_seg,
        mem_dietary_seg, hp, truthyOptInt] <;>
      simp [cuisinesClause, difficultyClause, prepClause, cookClause, dietaryClause,
        healthinessClause] <;>
      aesop
  · intro n
    rcases hk : r.max_cook_time with _ | m <;>
      simp only [postFilters, List.mem_append, mem_ite_singleton, mem_difficulty_seg,
        mem_dietary_seg, hk, truthyOptInt] <;>
      simp [cuisinesClause, difficultyClause, prepClause, cookClause, dietaryClause,
        healthinessClause] <;>
      aesop
  · intro b
    rcases hv : r.is_vegan with _ | b' <;>
      simp only [postFilters, List.mem_append, mem_ite_singleton, mem_difficulty_seg,
        mem_dietary_seg, hv] <;>
      simp [cuisinesClause, difficultyClause, prepClause, cookClause, dietaryClause,
        healthinessClause] <;>
      aesop
  · intro b
    rcases hv : r.is_vegetarian with _ | b' <;>
      simp only [postFilters, List.mem_append, mem_ite_singleton, mem_difficulty_seg,
        mem_dietary_seg, hv] <;>
      simp [cuisinesClause, difficultyClause, prepClause, cookClause, dietaryClause,
        healthinessClause] <;>
      aesop
  · intro b
    rcases hv : r.is_gluten_free with _ | b' <;>
      simp only [postFilters, List.mem_append, mem_ite_singleton, mem_difficulty_seg,
        mem_dietary_seg, hv] <;>
      simp [cuisinesClause, difficultyClause, prepClause, cookClause, dietaryClause,
        healthinessClause] <;>
      aesop
  · intro b
    rcases hv : r.is_dairy_free with _ | b' <;>
      simp only [postFilters, List.mem_append, mem_ite_singleton, mem_difficulty_seg,
        mem_dietary_seg, hv] <;>
      simp [cuisinesClause, difficultyClause, prepClause, cookClause, dietaryClause,
        healthinessClause] <;>
      aesop
  · intro b
    rcases hv : r.is_nut_free with _ | b' <;>
      simp only [postFilters, List.mem_append, mem_ite_singleton, mem_difficulty_seg,
        mem_dietary_seg, hv] <;>
      simp [cuisinesClause, difficultyClause, prepClause, cookClause, dietaryClause,
        healthinessClause] <;>
      aesop
  · by_cases hh : (truthyOptInt r.min_healthiness || truthyOptInt r.max_healthiness) = true <;>
      simp only [postFilters, List.mem_append, mem_ite_singleton, mem_difficulty_seg,
        mem_dietary_seg, hh] <;>
      simp [cuisinesClause, difficultyClause, prepClause, cookClause, dietaryClause,
        healthinessClause] <;>
      aesop
  · intro a b ha hna hb hnb
    simp [healthinessClause, ha, hb, truthyOptInt, hna, hnb]

/-- Witness for C7: a request with cuisines, difficulty, prep bound, one
dietary flag and both healthiness bounds set yields exactly five clauses,
and the healthiness bounds combine into one bounded range clause. -/
theorem c7_filter_clause_witness :
    (postFilters
      { cuisines := some ["italian"]
        difficulty := some Difficulty.easy
        max_prep_time := some 30
        is_vegan := some false
        min_healthiness := some 20
        max_healthiness := some 90 }).length = 5 ∧
    healthinessClause
      ({ cuisines := some ["italian"]
         difficulty := some Difficulty.easy
         max_prep_time := some 30
         is_vegan := some false
         min_healthiness := some 20
         max_healthiness := some 90 } : SearchRequest).min_healthiness
      ({ cuisines := some ["italian"]
         difficulty := some Difficulty.easy
         max_prep_time := some 30
         is_vegan := some false
         min_healthiness := some 20
         max_healthiness := some 90 } : SearchRequest).max_healthiness =
      Json.obj [("range", Json.obj [("healthiness_score",
        Json.obj [("gte", Json.num 20), ("lte", Json.num 90)])])] := by
  constructor
  · rw [(c7_filter_clause_catalog
      { cuisines := some ["italian"]
        difficulty := some Difficulty.easy
        max_prep_time := some 30
        is_vegan := some false
        min_healthiness := some 20
        max_healthiness := some 90 }).1]
    rfl
  · exact (c7_filter_clause_catalog
      { cuisines := some ["italian"]
        difficulty := some Difficulty.easy
        max_prep_time := some 30
        is_vegan := some false
        min_healthiness := some 20
        max_healthiness := some 90 }).2.2.2.2.2.2.2.2.2.2.2
      20 90 rfl (by decide) rfl (by decide)

/-- Claim C8: whenever facets are requested the compiled query carries
exactly the fixed seven-facet catalog — cuisines (terms, alphabetic, cap
1000), difficulty_levels (terms, alphabetic, cap 50), dietary_profiles
(terms, alphabetic, cap 50), healthiness_stats (stats), and the prep, cook
and total time range facets with the listed boundaries — and under the
spec-modelled lower-inclusive, upper-exclusive bucket semantics a document
with prep 15 falls only in the "15-30 min" bucket while prep 0 falls only
in "0-15 min". -/
theorem c8_fixed_facet_catalog (r : SearchRequest) (h : r.include_aggregations = true) :
    jlookup (buildSearchQuery r) "aggs" = some aggregationConfigs ∧
    jlookup (buildSearchQuery r) "runtime_mappings" = some runtimeMappings ∧
    (∃ fields, aggregationConfigs = Json.obj fields ∧
      fields.map Prod.fst = ["cuisines", "difficulty_levels", "dietary_profiles",
        "healthiness_stats", "prep_time_ranges", "cook_time_ranges", "total_time_ranges"]) ∧
    jlookup aggregationConfigs "cuisines" =
      some (termsAggJson "cuisine_list.keyword" 1000) ∧
    jlookup aggregationConfigs "difficulty_levels" =
      some (termsAggJson "difficulty.keyword" 50) ∧
    jlookup aggregationConfigs "dietary_profiles" =
      some (termsAggJson "dietary_profile.keyword" 50) ∧
    jlookup aggregationConfigs "healthiness_stats" =
      some (Json.obj [("stats", Json.obj [("field", Json.str "healthiness_score")])]) ∧
    jlookup aggregationConfigs "prep_time_ranges" =
      some (rangeAggJson "est_prep_time_min"
        [⟨"0-15 min", none, some 15⟩, ⟨"15-30 min", some 15, some 30⟩,
         ⟨"30-60 min", some 30, some 60⟩, ⟨"60+ min", some 60, none⟩]) ∧
    jlookup aggregationConfigs "cook_time_ranges" =
      some (rangeAggJson "est_cook_time_min"
        [⟨"0-15 min", none, some 15⟩, ⟨"15-30 min", some 15, some 30⟩,
         ⟨"30-45 min", some 30, some 45⟩, ⟨"45-60 min", some 45, some 60⟩,
         ⟨"60-90 min", some 60, some 90⟩, ⟨"90-120 min", some 90, some 120⟩,
         ⟨"120+ min", some 120, none⟩]) ∧
    jlookup aggregationConfigs "total_time_ranges" =
      some (rangeAggJson "total_time_min"
        [⟨"0-30 min", none, some 30⟩, ⟨"30-60 min", some 30, some 60⟩,
         ⟨"60-90 min", some 60, some 90⟩, ⟨"90-120 min", some 90, some 120⟩,
         ⟨"120+ min", some 120, none⟩]) ∧
    (∀ v : Int, 0 ≤ v → bucketsContaining prepTimeRanges v =
      (if v < 15 then ["0-15 min"]
       else if v < 30 then ["15-30 min"]
       else if v < 60 then ["30-60 min"]
       else ["60+ min"])) ∧
    bucketsContaining prepTimeRanges 15 = ["15-30 min"] ∧
    bucketsContaining prepTimeRanges 0 = ["0-15 min"] ∧
    bucketsContaining cookTimeRanges 15 = ["15-30 min"] ∧
    bucketsContaining totalTimeRanges 30 = ["30-60 min"] := by
  refine ⟨?_, ?_, ⟨_, rfl, rfl⟩, rfl, rfl, rfl, rfl, rfl, rfl, rfl,
    prep_partition, rfl, rfl, rfl, rfl⟩
  · rw [build_aggs_lookup, h]
    rfl
  · rw [build_runtime_lookup, h]
    rfl

/-- Witness for C8 at a request with facets enabled, including the bucket
partition instantiated at the in-range value 40. -/
theorem c8_fixed_facet_witness :
    jlookup (buildSearchQuery { include_aggregations := true }) "aggs" =
      some aggregationConfigs ∧
    bucketsContaining prepTimeRanges 40 =
      (if (40 : Int) < 15 then ["0-15 min"]
       else if (40 : Int) < 30 then ["15-30 min"]
       else if (40 : Int) < 60 then ["30-60 min"]
       else ["60+ min"]) ∧
    bucketsContaining prepTimeRanges 15 = ["15-30 min"] :=
  ⟨(c8_fixed_facet_catalog { include_aggregations := true } rfl).1,
   (c8_fixed_facet_catalog { include_aggregations := true } rfl).2.2.2.2.2.2.2.2.2.2.1
     40 (by decide),
   (c8_fixed_facet_catalog { include_aggregations := true } rfl).2.2.2.2.2.2.2.2.2.2.2.1⟩
